import Mathlib

/-!
A model of `app.js`.

`app.js` is an Express application with one route:

    const express = require('express');
    const app = express();
    const port = 8080;
    app.get('/', (req, res) => { res.send('Hello, World New Another one!'); });
    app.listen(port, () => { console.log(`App listening at http://localhost:${port}`); });

The program text is embedded in `port`, `rootHandler`, `app`, `startupCallback` and `main`.
Everything those five call belongs to the Express 4 library and to Node: `express()`,
`app.get`, `app.listen`, `res.send`, the router, the `fresh` check behind `req.fresh`, the
`etag` generator and the `finalhandler` fallback. They are embedded along the library code
paths this program reaches. Library primitives whose value plays no part in any property
below (the SHA-1 digest, date parsing, URL and HTML escaping, charset rewriting) are fields
of `Runtime`, and every theorem holds for every `Runtime`.
-/

namespace App

/-! ## Requests and responses -/

/-- Request methods that Node hands to the request listener in `req.method`.
`CONNECT` is left out: Node raises a separate event for it and never calls the listener. -/
inductive Method
  | ACL | BIND | CHECKOUT | COPY | DELETE | GET | HEAD | LINK | LOCK
  | MSEARCH | MERGE | MKACTIVITY | MKCALENDAR | MKCOL | MOVE | NOTIFY | OPTIONS
  | PATCH | POST | PROPFIND | PROPPATCH | PURGE | PUT | REBIND | REPORT | SEARCH
  | SOURCE | SUBSCRIBE | TRACE | UNBIND | UNLINK | UNLOCK | UNSUBSCRIBE
  deriving DecidableEq, Repr

/-- The string form of `req.method`. -/
def Method.name : Method → String
  | .ACL => "ACL" | .BIND => "BIND" | .CHECKOUT => "CHECKOUT" | .COPY => "COPY"
  | .DELETE => "DELETE" | .GET => "GET" | .HEAD => "HEAD" | .LINK => "LINK"
  | .LOCK => "LOCK" | .MSEARCH => "M-SEARCH" | .MERGE => "MERGE"
  | .MKACTIVITY => "MKACTIVITY" | .MKCALENDAR => "MKCALENDAR" | .MKCOL => "MKCOL"
  | .MOVE => "MOVE" | .NOTIFY => "NOTIFY" | .OPTIONS => "OPTIONS" | .PATCH => "PATCH"
  | .POST => "POST" | .PROPFIND => "PROPFIND" | .PROPPATCH => "PROPPATCH"
  | .PURGE => "PURGE" | .PUT => "PUT" | .REBIND => "REBIND" | .REPORT => "REPORT"
  | .SEARCH => "SEARCH" | .SOURCE => "SOURCE" | .SUBSCRIBE => "SUBSCRIBE"
  | .TRACE => "TRACE" | .UNBIND => "UNBIND" | .UNLINK => "UNLINK" | .UNLOCK => "UNLOCK"
  | .UNSUBSCRIBE => "UNSUBSCRIBE"

/-- An incoming request as the router sees it. `path` is `parseurl(req).pathname`, the
request target with the query string split off; `parseurl` never yields an empty pathname
(a target without one gives `null`, which the router answers 404 before trying any layer).
`headers` is `req.headers`, keyed by lower-cased field name. -/
structure Request where
  method : Method
  path : String
  query : Option String
  headers : List (String × String)
  body : String
  remoteAddress : String
  path_ne : path ≠ ""

/-- The value of `req.headers[name]`. -/
def Request.header (req : Request) (name : String) : Option String :=
  req.headers.lookup name

/-- JavaScript truthiness of a header value: present and not the empty string. -/
def truthy : Option String → Bool
  | some s => s != ""
  | none => false

/-- The outgoing response object. `headers` is keyed by lower-cased field name, as Node
keeps it; `ended` counts the calls of `res.end`, and `body` is what the first call wrote. -/
structure Res where
  statusCode : Nat
  headers : List (String × String)
  body : String
  ended : Nat
  deriving DecidableEq, Repr

/-- A response object as Node creates it for each request. -/
def Res.fresh : Res := { statusCode := 200, headers := [], body := "", ended := 0 }

/-- Lower-casing of a header field name (`String.prototype.toLowerCase` on ASCII names). -/
def lower (s : String) : String := String.mk (s.data.map Char.toLower)

/-- Replace the value stored under key `k`, or add the entry at the back. -/
def setEntry (k v : String) : List (String × String) → List (String × String)
  | [] => [(k, v)]
  | (k', v') :: t => if k' = k then (k', v) :: t else (k', v') :: setEntry k v t

/-- Node `res.setHeader(name, value)`. -/
def Res.setHeader (res : Res) (name value : String) : Res :=
  { res with headers := setEntry (lower name) value res.headers }

/-- Node `res.getHeader(name)`, also Express `res.get(name)`. -/
def Res.getHeader (res : Res) (name : String) : Option String :=
  res.headers.lookup (lower name)

/-- Node `res.removeHeader(name)`. -/
def Res.removeHeader (res : Res) (name : String) : Res :=
  { res with headers := res.headers.filter (fun h => h.1 != lower name) }

/-- Node `res.end(chunk)`: the first call writes the body and finishes the response; a
later call writes nothing. -/
def Res.end_ (res : Res) (chunk : String) : Res :=
  if res.ended = 0 then { res with body := chunk, ended := 1 }
  else { res with ended := res.ended + 1 }

/-- Library primitives outside the repository whose exact value no property depends on. -/
structure Runtime where
  /-- Base64 text of the SHA-1 digest of a string (`crypto.createHash('sha1')`). -/
  sha1Base64 : String → String
  /-- Timestamp of an HTTP date (`Date.parse`); `none` stands for `NaN`. -/
  parseHttpDate : String → Option Int
  /-- Express `utils.setCharset(type, 'utf-8')`. -/
  setCharsetUtf8 : String → String
  /-- The `encodeurl` package. -/
  encodeUrl : String → String
  /-- The escaping `finalhandler` applies to its message (`escapeHtml`, then the
  newline and double-space replacements). -/
  escapeMessage : String → String

/-! ## Conditional requests: the `fresh` package and `req.fresh` -/

/-- JavaScript `\s`. -/
def isJsSpace (c : Char) : Bool :=
  let n := c.toNat
  n = 9 || n = 10 || n = 11 || n = 12 || n = 13 || n = 32 || n = 0xa0 || n = 0x1680 ||
  (0x2000 ≤ n && n ≤ 0x200a) || n = 0x2028 || n = 0x2029 || n = 0x202f || n = 0x205f ||
  n = 0x3000 || n = 0xfeff

/-- Split a character list at every comma. -/
def splitComma : List Char → List (List Char)
  | [] => [[]]
  | c :: cs =>
    match splitComma cs with
    | [] => [[]]
    | h :: t => if c = ',' then [] :: h :: t else (c :: h) :: t

/-- Drop JavaScript white space at both ends. -/
def stripSpace (cs : List Char) : List Char :=
  ((cs.dropWhile isJsSpace).reverse.dropWhile isJsSpace).reverse

/-- The test `/(?:^|,)\s*?no-cache\s*?(?:,|$)/` of `fresh`: some comma-delimited stretch of
the `Cache-Control` value is `no-cache` with optional white space around it. -/
def noCacheDirective (cacheControl : String) : Bool :=
  (splitComma cacheControl.data).any (fun seg => stripSpace seg = "no-cache".data)

/-- JavaScript `str.substring(start, stop)` on the character list. -/
def substring (str : List Char) (start stop : Nat) : String :=
  String.mk ((str.drop start).take (stop - start))

/-- The scanning loop of `parseTokenList` in `fresh`: `i` is the index of the next
character, `start` and `stop` delimit the token being gathered. -/
def parseTokenListLoop (str : List Char) :
    List Char → Nat → Nat → Nat → List String → List String
  | [], _, start, stop, list => list ++ [substring str start stop]
  | c :: cs, i, start, stop, list =>
    if c = ' ' then
      if start = stop then parseTokenListLoop str cs (i + 1) (i + 1) (i + 1) list
      else parseTokenListLoop str cs (i + 1) start stop list
    else if c = ',' then
      parseTokenListLoop str cs (i + 1) (i + 1) (i + 1) (list ++ [substring str start stop])
    else parseTokenListLoop str cs (i + 1) start (i + 1) list

/-- The `parseTokenList` function of `fresh`: the comma-separated tokens of a header
value, without the spaces around them. -/
def parseTokenList (str : String) : List String :=
  parseTokenListLoop str.data str.data 0 0 0 []

/-- The `fresh(reqHeaders, resHeaders)` function of the `fresh` package (0.5.2, the one
Express 4 depends on): does the client cache still hold the response that is about to be
sent? `etag` and `lastModified` are the two response headers Express passes in. -/
def fresh (rt : Runtime) (reqHeaders : List (String × String))
    (etag lastModified : Option String) : Bool :=
  let modifiedSince := reqHeaders.lookup "if-modified-since"
  let noneMatch := reqHeaders.lookup "if-none-match"
  -- unconditional request
  if !truthy modifiedSince && !truthy noneMatch then false
  -- Cache-Control: no-cache always gets the full response
  else if truthy (reqHeaders.lookup "cache-control") &&
      noCacheDirective ((reqHeaders.lookup "cache-control").getD "") then false
  -- if-none-match
  else if truthy noneMatch && noneMatch != some "*" &&
      (!truthy etag ||
        !(parseTokenList (noneMatch.getD "")).any (fun m =>
            m = etag.getD "" || m = "W/" ++ etag.getD "" || "W/" ++ m = etag.getD "")) then
    false
  -- if-modified-since
  else if truthy modifiedSince &&
      (!truthy lastModified ||
        !(match rt.parseHttpDate (lastModified.getD ""),
                rt.parseHttpDate (modifiedSince.getD "") with
          | some l, some m => decide (l ≤ m)
          | _, _ => false)) then
    false
  else true

/-- The Express getter `req.fresh`: only GET and HEAD, and only with a 2xx or 304 status,
are checked against the validators of the response. -/
def reqFresh (rt : Runtime) (req : Request) (res : Res) : Bool :=
  if req.method ≠ .GET ∧ req.method ≠ .HEAD then false
  else if (200 ≤ res.statusCode ∧ res.statusCode < 300) ∨ res.statusCode = 304 then
    fresh rt req.headers (res.getHeader "ETag") (res.getHeader "Last-Modified")
  else false

/-! ## `res.send` -/

/-- Lower-case hexadecimal text of a number (`Number.prototype.toString(16)`). -/
def hex (n : Nat) : String := String.mk (Nat.toDigits 16 n)

/-- The `entitytag` function of the `etag` package: byte length in hexadecimal, a dash and
the first 27 characters of the Base64 SHA-1 digest, in double quotes. -/
def entitytag (rt : Runtime) (entity : String) : String :=
  if entity.utf8ByteSize = 0 then "\"0-2jmj7l5rSw0yVb/vlWAYkK/YBwk\""
  else "\"" ++ hex entity.utf8ByteSize ++ "-" ++
    String.mk ((rt.sha1Base64 entity).data.take 27) ++ "\""

/-- The ETag generator Express installs by default (the `etag` setting is `weak`). -/
def weakETag (rt : Runtime) (entity : String) : String := "W/" ++ entitytag rt entity

/-- The header part of `res.send(chunk)` for a string `chunk`. A response without a
Content-Type gets `text/html; charset=utf-8`: `res.type('html')` stores that value and the
charset rewrite that follows leaves it as it is; a Content-Type set earlier goes through
`setCharset`. Then Content-Length is set, and an ETag unless one is there already. -/
def sendHeaders (rt : Runtime) (res : Res) (chunk : String) : Res :=
  let res1 :=
    if truthy (res.getHeader "Content-Type") then
      res.setHeader "Content-Type" (rt.setCharsetUtf8 ((res.getHeader "Content-Type").getD ""))
    else res.setHeader "Content-Type" "text/html; charset=utf-8"
  let generateETag := !truthy (res1.getHeader "ETag")
  let res2 := res1.setHeader "Content-Length" (toString chunk.utf8ByteSize)
  if generateETag && weakETag rt chunk != "" then res2.setHeader "ETag" (weakETag rt chunk)
  else res2

/-- Express `res.send(chunk)` for a string `chunk`: headers, then the freshness check that
turns the status into 304, then the removal of body headers for 204 and 304, the 205
rule, and one call of `res.end` (without a body for HEAD). -/
def send (rt : Runtime) (req : Request) (res : Res) (chunk : String) : Res :=
  let res1 := sendHeaders rt res chunk
  -- freshness
  let res2 := if reqFresh rt req res1 then { res1 with statusCode := 304 } else res1
  -- strip irrelevant headers
  let strip : Bool := res2.statusCode = 204 ∨ res2.statusCode = 304
  let res3 :=
    if strip then
      ((res2.removeHeader "Content-Type").removeHeader "Content-Length").removeHeader
        "Transfer-Encoding"
    else res2
  let chunk3 := if strip then "" else chunk
  -- alter headers for 205
  let reset : Bool := res3.statusCode = 205
  let res4 :=
    if reset then (res3.setHeader "Content-Length" "0").removeHeader "Transfer-Encoding"
    else res3
  let chunk4 := if reset then "" else chunk3
  if req.method = .HEAD then res4.end_ "" else res4.end_ chunk4

/-! ## The fallback of the router: `finalhandler` -/

/-- The `createHtmlDocument` function of `finalhandler`. -/
def createHtmlDocument (rt : Runtime) (message : String) : String :=
  "<!DOCTYPE html>\n<html lang=\"en\">\n<head>\n<meta charset=\"utf-8\">\n" ++
  "<title>Error</title>\n</head>\n<body>\n<pre>" ++ rt.escapeMessage message ++
  "</pre>\n</body>\n</html>\n"

/-- The callback `finalhandler(req, res)` run without an error, when no layer answered:
status 404 with the document `Cannot METHOD path`. A response that was already sent is
left alone. -/
def finalhandler (rt : Runtime) (req : Request) (res : Res) : Res :=
  if res.ended ≠ 0 then res
  else
    let body := createHtmlDocument rt
      ("Cannot " ++ req.method.name ++ " " ++ rt.encodeUrl req.path)
    let res1 := { res with statusCode := 404 }
    let res2 := ((res1.removeHeader "Content-Encoding").removeHeader
      "Content-Language").removeHeader "Content-Range"
    let res3 := res2.setHeader "Content-Security-Policy" "default-src \x27none\x27"
    let res4 := res3.setHeader "X-Content-Type-Options" "nosniff"
    let res5 := res4.setHeader "Content-Type" "text/html; charset=utf-8"
    let res6 := res5.setHeader "Content-Length" (toString body.utf8ByteSize)
    if req.method = .HEAD then res6.end_ "" else res6.end_ body

/-! ## The router -/

/-- What a handler leaves behind: the response object, and whether it called `next()`. -/
structure Step where
  res : Res
  next : Bool

/-- A request handler `(req, res, next) => ...`. -/
abbrev Handler := Runtime → Request → Res → Step

/-- One entry of a route stack: the method it was registered for and its handler. -/
structure RouteLayer where
  method : Method
  handle : Handler

/-- An Express `Route`: its path, the methods it has handlers for, and its stack. -/
structure Route where
  path : String
  methods : List Method
  stack : List RouteLayer

/-- One entry of the router stack: a middleware mounted at `/` (it matches every path)
or a route. -/
inductive Layer
  | middleware (name : String) (handle : Handler)
  | route (r : Route)

/-- The Express application object: the `env` setting and the router stack. The other
default settings this program relies on (`etag` weak, `x-powered-by` enabled, routing
neither strict nor case sensitive) are built into `send`, `expressInit` and `matchPath`. -/
structure Application where
  env : String
  stack : List Layer

/-- The match of a request path against a route path without pattern characters, as
compiled by `path-to-regexp` with the router defaults (not strict, not case sensitive,
anchored at the end): the route path with its final slash optional. For `/` the compiled
pattern is `/^\/?$/i`. -/
def matchPath (routePath reqPath : String) : Bool :=
  let stem :=
    if routePath.data.getLast? = some '/' then routePath.data.dropLast else routePath.data
  let p := reqPath.data.map Char.toLower
  p = stem.map Char.toLower || p = stem.map Char.toLower ++ ['/']

/-- Express `Route.prototype._handles_method`: a route with a GET handler and no HEAD
handler also takes HEAD. -/
def Route.handlesMethod (r : Route) (m : Method) : Bool :=
  let name := if m = .HEAD ∧ ¬ Method.HEAD ∈ r.methods then Method.GET else m
  decide (name ∈ r.methods)

/-- Express `Route.prototype._options`: the methods of the route, with the automatic HEAD. -/
def Route.options (r : Route) : List String :=
  let ms := r.methods.map Method.name
  if Method.GET ∈ r.methods ∧ ¬ Method.HEAD ∈ r.methods then ms ++ ["HEAD"] else ms

/-- The `appendMethods` helper of the router: add the methods not yet listed. -/
def appendMethods (list addition : List String) : List String :=
  addition.foldl (fun acc m => if m ∈ acc then acc else acc ++ [m]) list

/-- Express `Route.prototype.dispatch`: run the handlers registered for the method (HEAD
counts as GET when the route has no HEAD handler) until one does not call `next()`. -/
def Route.dispatch (rt : Runtime) (req : Request) (method : Method) :
    List RouteLayer → Res → Step
  | [], res => { res := res, next := true }
  | l :: ls, res =>
    if l.method ≠ method then Route.dispatch rt req method ls res
    else
      let s := l.handle rt req res
      if s.next then Route.dispatch rt req method ls s.res else s

/-- The automatic answer to OPTIONS (`sendOptionsResponse`): the list of methods in the
Allow header and in the body. -/
def sendOptionsResponse (rt : Runtime) (req : Request) (res : Res)
    (options : List String) : Res :=
  let body := String.intercalate "," options
  send rt req (res.setHeader "Allow" body) body

/-- The `done` callback of `router.handle`: the OPTIONS answer when a route matched the
path of an OPTIONS request, the `finalhandler` 404 otherwise. -/
def done (rt : Runtime) (req : Request) (options : List String) (res : Res) : Res :=
  if req.method = .OPTIONS ∧ options ≠ [] then sendOptionsResponse rt req res options
  else finalhandler rt req res

/-- Express `router.handle`: walk the stack; a middleware runs on every request, a route
runs when its path matches and it handles the method; a layer that does not call `next()`
ends the walk; `done` runs when the stack is exhausted. -/
def routerHandle (rt : Runtime) (req : Request) : List Layer → List String → Res → Res
  | [], options, res => done rt req options res
  | Layer.middleware _ h :: rest, options, res =>
    let s := h rt req res
    if s.next then routerHandle rt req rest options s.res else s.res
  | Layer.route r :: rest, options, res =>
    if matchPath r.path req.path then
      let hasMethod := r.handlesMethod req.method
      let options1 :=
        if !hasMethod && req.method = .OPTIONS then appendMethods options r.options
        else options
      if !hasMethod && req.method ≠ .HEAD then routerHandle rt req rest options1 res
      else
        let method :=
          if req.method = .HEAD ∧ ¬ Method.HEAD ∈ r.methods then Method.GET else req.method
        let s := Route.dispatch rt req method r.stack res
        if s.next then routerHandle rt req rest options1 s.res else s.res
    else routerHandle rt req rest options res

/-- The `query` middleware Express installs first: it parses the query string into
`req.query` and calls `next()`. -/
def queryMiddleware : Handler := fun _ _ res => { res := res, next := true }

/-- The `expressInit` middleware Express installs second: it sets `X-Powered-By` and
calls `next()`. -/
def expressInit : Handler :=
  fun _ _ res => { res := res.setHeader "X-Powered-By" "Express", next := true }

/-- The call `express()`: the `env` setting is `process.env.NODE_ENV`, or `development`
when that is unset or empty; the router starts with the two built-in middlewares. -/
def express (penv : List (String × String)) : Application :=
  { env := if truthy (penv.lookup "NODE_ENV") then (penv.lookup "NODE_ENV").getD ""
           else "development",
    stack := [Layer.middleware "query" queryMiddleware,
              Layer.middleware "expressInit" expressInit] }

/-- Express `app.get(path, handler)`: a new route for `path` with `handler` under GET. -/
def Application.get (a : Application) (path : String) (handler : Handler) : Application :=
  { a with stack := a.stack ++
      [Layer.route { path := path, methods := [Method.GET],
                     stack := [{ method := Method.GET, handle := handler }] }] }

/-- Express `app.handle(req, res)`: the router, on a new response object. -/
def Application.handle (a : Application) (rt : Runtime) (req : Request) : Res :=
  routerHandle rt req a.stack [] Res.fresh

/-! ## The program -/

/-- Source: `const port = 8080;`. -/
def port : Nat := 8080

/-- Source: `(req, res) => { res.send('Hello, World New Another one!'); }`. The callback
takes no `next` and so never calls it. -/
def rootHandler : Handler :=
  fun rt req res => { res := send rt req res "Hello, World New Another one!", next := false }

/-- Source: `const app = express(); app.get('/', ...)`, in a process whose environment
is `penv`. -/
def app (penv : List (String × String)) : Application :=
  (express penv).get "/" rootHandler

/-- The response of the running server to one request. -/
def serve (rt : Runtime) (penv : List (String × String)) (req : Request) : Res :=
  (app penv).handle rt req

/-! ## The running server, with the state that outlives a request

A handler can reach the application object, through `req.app` and through the module
binding `app`, and so can read and write what the next request will find there. The
definitions of this section embed the same program with that state passed from one
request to the next. -/

/-- The values of the Express setting `etag`. -/
inductive ETagSetting
  | off
  | weak
  | strong
  deriving DecidableEq, Repr

/-- The entries of `app.settings` that the handling of a request reads. -/
structure Settings where
  env : String
  etag : ETagSetting
  xPoweredBy : Bool
  deriving DecidableEq, Repr

/-- The state of the application object that outlives a request: `app.settings` and
`app.locals`. -/
structure Shared where
  settings : Settings
  locals : List (String × String)
  deriving DecidableEq, Repr

/-- The application object when the server starts to listen: the settings of
`app.defaultConfiguration` (`app.js` changes none of them) and no locals. -/
def Shared.start (penv : List (String × String)) : Shared :=
  { settings := { env := (app penv).env, etag := .weak, xPoweredBy := true },
    locals := [] }

/-- The setting `etag fn`, compiled from the setting `etag`. -/
def etagGenerator (rt : Runtime) : ETagSetting → Option (String → String)
  | .off => none
  | .weak => some (weakETag rt)
  | .strong => some (entitytag rt)

/-- The header part of `res.send(chunk)` with the ETag generator read from the settings. -/
def sendHeadersWith (rt : Runtime) (etagFn : Option (String → String)) (res : Res)
    (chunk : String) : Res :=
  let res1 :=
    if truthy (res.getHeader "Content-Type") then
      res.setHeader "Content-Type" (rt.setCharsetUtf8 ((res.getHeader "Content-Type").getD ""))
    else res.setHeader "Content-Type" "text/html; charset=utf-8"
  let res2 := res1.setHeader "Content-Length" (toString chunk.utf8ByteSize)
  match etagFn with
  | some fn =>
    if !truthy (res1.getHeader "ETag") && fn chunk != "" then res2.setHeader "ETag" (fn chunk)
    else res2
  | none => res2

/-- Express `res.send(chunk)` with the ETag generator read from the settings. -/
def sendWith (rt : Runtime) (etagFn : Option (String → String)) (req : Request) (res : Res)
    (chunk : String) : Res :=
  let res1 := sendHeadersWith rt etagFn res chunk
  let res2 := if reqFresh rt req res1 then { res1 with statusCode := 304 } else res1
  let strip : Bool := res2.statusCode = 204 ∨ res2.statusCode = 304
  let res3 :=
    if strip then
      ((res2.removeHeader "Content-Type").removeHeader "Content-Length").removeHeader
        "Transfer-Encoding"
    else res2
  let chunk3 := if strip then "" else chunk
  let reset : Bool := res3.statusCode = 205
  let res4 :=
    if reset then (res3.setHeader "Content-Length" "0").removeHeader "Transfer-Encoding"
    else res3
  let chunk4 := if reset then "" else chunk3
  if req.method = .HEAD then res4.end_ "" else res4.end_ chunk4

/-- What a handler leaves behind when the shared state is tracked: the response object,
whether it called `next()`, and the shared state after it ran. -/
structure SharedStep where
  res : Res
  next : Bool
  shared : Shared

/-- A request handler that may read and write the shared state. -/
abbrev SharedHandler := Runtime → Request → Res → Shared → SharedStep

/-- One entry of a route stack, its handler having access to the shared state. -/
structure SharedRouteLayer where
  method : Method
  handle : SharedHandler

/-- One entry of the router stack, its handlers having access to the shared state: a
middleware, or a route with its path, its methods and its stack. -/
inductive SharedLayer
  | middleware (name : String) (handle : SharedHandler)
  | route (path : String) (methods : List Method) (stack : List SharedRouteLayer)

/-- Express `Route.prototype.dispatch`, passing the shared state from handler to handler. -/
def dispatchShared (rt : Runtime) (req : Request) (method : Method) :
    List SharedRouteLayer → Res → Shared → SharedStep
  | [], res, s => { res := res, next := true, shared := s }
  | l :: ls, res, s =>
    if l.method ≠ method then dispatchShared rt req method ls res s
    else
      let st := l.handle rt req res s
      if st.next then dispatchShared rt req method ls st.res st.shared else st

/-- The `done` callback of `router.handle`, the OPTIONS answer going through `res.send`
with the settings of the moment. -/
def doneShared (rt : Runtime) (req : Request) (options : List String) (res : Res)
    (s : Shared) : Res :=
  if req.method = .OPTIONS ∧ options ≠ [] then
    sendWith rt (etagGenerator rt s.settings.etag) req
      (res.setHeader "Allow" (String.intercalate "," options)) (String.intercalate "," options)
  else finalhandler rt req res

/-- Express `router.handle`, passing the shared state from layer to layer; the result is
the response and the shared state the next request will find. -/
def routerHandleShared (rt : Runtime) (req : Request) :
    List SharedLayer → List String → Res → Shared → Res × Shared
  | [], options, res, s => (doneShared rt req options res s, s)
  | SharedLayer.middleware _ h :: rest, options, res, s =>
    let st := h rt req res s
    if st.next then routerHandleShared rt req rest options st.res st.shared
    else (st.res, st.shared)
  | SharedLayer.route path methods stack :: rest, options, res, s =>
    if matchPath path req.path then
      let r : Route := { path := path, methods := methods, stack := [] }
      let hasMethod := r.handlesMethod req.method
      let options1 :=
        if !hasMethod && req.method = .OPTIONS then appendMethods options r.options
        else options
      if !hasMethod && req.method ≠ .HEAD then routerHandleShared rt req rest options1 res s
      else
        let method :=
          if req.method = .HEAD ∧ ¬ Method.HEAD ∈ methods then Method.GET else req.method
        let st := dispatchShared rt req method stack res s
        if st.next then routerHandleShared rt req rest options1 st.res st.shared
        else (st.res, st.shared)
    else routerHandleShared rt req rest options res s

/-- The `query` middleware: it writes `req.query` only. -/
def queryShared : SharedHandler := fun _ _ res s => { res := res, next := true, shared := s }

/-- The `expressInit` middleware: it sets `X-Powered-By` when the setting `x-powered-by`
is enabled, and writes nothing else but links between `req` and `res`. -/
def expressInitShared : SharedHandler :=
  fun _ _ res s =>
    { res := if s.settings.xPoweredBy then res.setHeader "X-Powered-By" "Express" else res,
      next := true, shared := s }

/-- Source: `(req, res) => { res.send('Hello, World New Another one!'); }`. The body is the
one call of `res.send`, which reads the setting `etag fn`; the callback assigns to nothing
and calls no setter of `app`. -/
def rootHandlerShared : SharedHandler :=
  fun rt req res s =>
    { res := sendWith rt (etagGenerator rt s.settings.etag) req res
        "Hello, World New Another one!",
      next := false, shared := s }

/-- The router stack of `app.js`: the two built-in middlewares and the route registered
by `app.get('/', ...)`. -/
def sharedStack : List SharedLayer :=
  [SharedLayer.middleware "query" queryShared,
   SharedLayer.middleware "expressInit" expressInitShared,
   SharedLayer.route "/" [Method.GET] [{ method := Method.GET, handle := rootHandlerShared }]]

/-- The handling of one request by the running server: the response, and the shared
state it leaves. -/
def handleRequest (rt : Runtime) (s : Shared) (req : Request) : Res × Shared :=
  routerHandleShared rt req sharedStack [] Res.fresh s

/-- The handling of a batch of requests in their order of arrival, each one starting from
the shared state the one before it left: the responses in that order, and the final
shared state. The handler of `app.js` and the built-in middlewares are synchronous, so
the event loop runs them for one request before it takes up the next; the 404 of
`finalhandler`, which can be written a tick later, is made from that request alone. -/
def serveBatch (rt : Runtime) : Shared → List Request → List Res × Shared
  | s, [] => ([], s)
  | s, req :: rest =>
    let r := handleRequest rt s req
    let r' := serveBatch rt r.2 rest
    (r.1 :: r'.1, r'.2)

/-! ## Startup -/

/-- The arguments the listening socket is bound with; no `host` means all interfaces. -/
structure ListenArgs where
  port : Nat
  host : Option String
  deriving DecidableEq, Repr

/-- Why the bind of a listening socket can fail. -/
inductive BindError
  | EADDRINUSE
  | EACCES
  deriving DecidableEq, Repr

/-- The observable state of the process: the lines on standard output, the socket it
listens on, an uncaught exception, and the exit code once it has terminated. -/
structure Process where
  stdout : List String
  listening : Option ListenArgs
  uncaught : Option BindError
  exitCode : Option Nat
  deriving DecidableEq, Repr

/-- The process before `app.js` has run. -/
def Process.start : Process :=
  { stdout := [], listening := none, uncaught := none, exitCode := none }

/-- Node `console.log(line)`. -/
def consoleLog (line : String) (p : Process) : Process :=
  { p with stdout := p.stdout ++ [line] }

/-- A Node `http.Server` as an event emitter: the registered listeners by event name. -/
structure Server where
  listeners : List (String × (Process → Process))

/-- Node `emitter.once(event, cb)`. -/
def Server.once (s : Server) (event : String) (cb : Process → Process) : Server :=
  { listeners := s.listeners ++ [(event, cb)] }

/-- Node `emitter.emit(event)`: run the listeners of the event. An `error` event without
a listener is thrown; nothing catches it, and Node ends the process with exit code 1. -/
def Server.emit (s : Server) (event : String) (err : Option BindError) (p : Process) :
    Process :=
  match s.listeners.filter (fun l => l.1 = event) with
  | [] => if event = "error" then { p with uncaught := err, exitCode := some 1 } else p
  | l :: ls => (l :: ls).foldl (fun q cb => cb.2 q) p

/-- Node `server.listen(port, cb)`: `cb` becomes a listener of `listening`; the bind then
either succeeds, and `listening` is emitted, or fails, and `error` is emitted. -/
def Server.listen (s : Server) (args : ListenArgs) (cb : Process → Process)
    (bind : ListenArgs → Except BindError Unit) (p : Process) : Process :=
  let s1 := s.once "listening" cb
  match bind args with
  | .ok _ => s1.emit "listening" none { p with listening := some args }
  | .error e => s1.emit "error" (some e) p

/-- Express 4 `app.listen(port, cb)`: `http.createServer(app).listen(port, cb)`. -/
def Application.listen (_a : Application) (port : Nat) (cb : Process → Process)
    (bind : ListenArgs → Except BindError Unit) (p : Process) : Process :=
  (Server.mk []).listen { port := port, host := none } cb bind p

/-- Source: the callback of `app.listen`, which logs the template string with `port`. -/
def startupCallback : Process → Process :=
  consoleLog ("App listening at http://localhost:" ++ toString port)

/-- The run of `app.js` up to the outcome of the bind. `bind` is the answer of the
operating system to the bind request. -/
def main (penv : List (String × String)) (_argv : List String)
    (bind : ListenArgs → Except BindError Unit) : Process :=
  (app penv).listen port startupCallback bind Process.start

/-- The response of the process to a request, if it is serving. -/
def Process.respond (p : Process) (rt : Runtime) (penv : List (String × String))
    (req : Request) : Option Res :=
  if p.listening.isSome ∧ p.exitCode.isNone then some (serve rt penv req) else none

/-! ## Derived notions used in the statements -/

/-- The response object as it reaches the first route: new, with the header set by
`expressInit`. -/
def initialRes : Res := Res.fresh.setHeader "X-Powered-By" "Express"

/-- The freshness check as `res.send` runs it inside `rootHandler`: the request headers
against the ETag of the greeting, the response having no Last-Modified header. -/
def notModified (rt : Runtime) (req : Request) : Bool :=
  fresh rt req.headers (some (weakETag rt "Hello, World New Another one!")) none

/-- The Content-Type header of a response. -/
def Res.contentType (res : Res) : Option String := res.getHeader "Content-Type"

/-- The paths of the routes registered on an application. -/
def Application.routePaths (a : Application) : List String :=
  a.stack.filterMap (fun l => match l with
    | Layer.route r => some r.path
    | Layer.middleware _ _ => none)

/-- A runtime for evaluating the model on concrete requests. The digest is the SHA-1 of
the two bodies this program sends; the escaping functions are the identity, which is what
the packages do on the plain ASCII text of the examples; the date parser and the charset
rewrite are never reached by this program. -/
def sampleRuntime : Runtime :=
  { sha1Base64 := fun s =>
      if s = "Hello, World New Another one!" then "I5BA43c4ynN2ElXYX6JVu4jyuTI="
      else if s = "GET,HEAD" then "ZRAf8oNBS3Bjb/SU2GYZCmbtmXg="
      else "",
    parseHttpDate := fun _ => none,
    setCharsetUtf8 := fun t => t,
    encodeUrl := fun u => u,
    escapeMessage := fun m => m }

/-- A request with the given method, path and headers, without query string or body. -/
def request (method : Method) (path : String) (headers : List (String × String))
    (h : path ≠ "") : Request :=
  { method := method, path := path, query := none, headers := headers, body := "",
    remoteAddress := "127.0.0.1", path_ne := h }

/-- Request `GET /` without headers. -/
def plainGet : Request := request .GET "/" [] (by decide)

/-- Request `GET /` with `If-None-Match: *`. -/
def conditionalGet : Request := request .GET "/" [("if-none-match", "*")] (by decide)

/-- Request `GET /` with the ETag of the greeting in `If-None-Match`, a query string, a
body and another client address. -/
def revalidatingGet : Request :=
  { method := .GET, path := "/", query := some "x=1",
    headers := [("host", "localhost:8080"),
                ("if-none-match", "W/\"1d-I5BA43c4ynN2ElXYX6JVu4jyuTI\"")],
    body := "ignored", remoteAddress := "10.0.0.7", path_ne := by decide }

/-- Request `GET /` without validators, with other headers, a query string, a body and
another client address. -/
def verboseGet : Request :=
  { method := .GET, path := "/", query := some "lang=en&debug=1",
    headers := [("host", "localhost:8080"), ("accept", "text/plain"),
                ("user-agent", "curl/8.5.0")],
    body := "payload", remoteAddress := "10.0.0.7", path_ne := by decide }

/-- Request `HEAD /` without headers. -/
def headRoot : Request := request .HEAD "/" [] (by decide)

/-- Request `OPTIONS /` without headers. -/
def optionsRoot : Request := request .OPTIONS "/" [] (by decide)

/-- Request `POST /` without headers. -/
def postRoot : Request := request .POST "/" [] (by decide)

/-- Request `GET /foo` without headers. -/
def getFoo : Request := request .GET "/foo" [] (by decide)

/-- An operating system on which the bind succeeds. -/
def bindOk : ListenArgs → Except BindError Unit := fun _ => .ok ()

/-- An operating system on which the port is taken. -/
def bindInUse : ListenArgs → Except BindError Unit := fun _ => .error .EADDRINUSE

/-- An operating system that grants port 8080 on all interfaces and nothing else. -/
def bindOnly8080 : ListenArgs → Except BindError Unit :=
  fun a => if a = { port := 8080, host := none } then .ok () else .error .EACCES

/-! ## Lemmas on the library model -/

theorem lower_lit : lower "ETag" = "etag" ∧ lower "Content-Type" = "content-type" ∧
    lower "Content-Length" = "content-length" ∧ lower "X-Powered-By" = "x-powered-by" ∧
    lower "Last-Modified" = "last-modified" ∧
    lower "Transfer-Encoding" = "transfer-encoding" ∧ lower "Allow" = "allow" := by decide

theorem weakETag_ne (rt : Runtime) (e : String) : weakETag rt e ≠ "" := by
  intro h
  have := congrArg String.data h
  simp [weakETag, String.data_append] at this

theorem initialRes_eq : initialRes =
    { statusCode := 200, headers := [("x-powered-by", "Express")], body := "", ended := 0 } := by
  decide

/-- The headers `res.send` puts on the response that reaches the route. -/
theorem sendHeaders_initial (rt : Runtime) (chunk : String) :
    sendHeaders rt initialRes chunk =
      { statusCode := 200,
        headers := [("x-powered-by", "Express"), ("content-type", "text/html; charset=utf-8"),
          ("content-length", toString chunk.utf8ByteSize), ("etag", weakETag rt chunk)],
        body := "", ended := 0 } := by
  obtain ⟨h1, h2, h3, h4, -, -, -⟩ := lower_lit
  simp [initialRes_eq, sendHeaders, Res.setHeader, Res.getHeader, setEntry, truthy, h1, h2, h3,
    h4, weakETag_ne, List.lookup]

/-- The freshness check depends on the request headers only through three fields. -/
theorem fresh_congr (rt : Runtime) (h1 h2 : List (String × String)) (etag lm : Option String)
    (hn : h1.lookup "if-none-match" = h2.lookup "if-none-match")
    (hm : h1.lookup "if-modified-since" = h2.lookup "if-modified-since")
    (hc : h1.lookup "cache-control" = h2.lookup "cache-control") :
    fresh rt h1 etag lm = fresh rt h2 etag lm := by
  simp only [fresh, hn, hm, hc]

/-- Every call of `res.send` calls `res.end` exactly once. -/
theorem send_ended (rt : Runtime) (req : Request) (res : Res) (chunk : String) :
    (send rt req res chunk).ended = res.ended + 1 := by
  have key : ∀ (r : Res) (c : String), (r.end_ c).ended = r.ended + 1 := by
    intro r c
    unfold Res.end_
    split <;> simp_all
  have hrm : ∀ (r : Res) (n : String), (r.removeHeader n).ended = r.ended := fun _ _ => rfl
  have hset : ∀ (r : Res) (n v : String), (r.setHeader n v).ended = r.ended := fun _ _ _ => rfl
  have hsh : (sendHeaders rt res chunk).ended = res.ended := by
    unfold sendHeaders
    simp only
    split <;> split <;> simp [hset]
  unfold send
  simp only
  split <;> rw [key] <;> split <;> split <;> split <;> simp [hrm, hset, hsh]

/-- What `res.send` does to the response that reaches the route. -/
theorem send_initial (rt : Runtime) (req : Request) (chunk : String) :
    send rt req initialRes chunk =
      if (req.method = .GET ∨ req.method = .HEAD) ∧
          fresh rt req.headers (some (weakETag rt chunk)) none = true then
        { statusCode := 304,
          headers := [("x-powered-by", "Express"), ("etag", weakETag rt chunk)],
          body := "", ended := 1 }
      else
        { statusCode := 200,
          headers := [("x-powered-by", "Express"),
            ("content-type", "text/html; charset=utf-8"),
            ("content-length", toString chunk.utf8ByteSize), ("etag", weakETag rt chunk)],
          body := if req.method = .HEAD then "" else chunk, ended := 1 } := by
  obtain ⟨h1, h2, h3, h4, h5, h6, -⟩ := lower_lit
  have hf : reqFresh rt req (sendHeaders rt initialRes chunk) =
      (decide (req.method = .GET ∨ req.method = .HEAD) &&
        fresh rt req.headers (some (weakETag rt chunk)) none) := by
    rw [sendHeaders_initial]
    unfold reqFresh
    by_cases hg : req.method = .GET
    · simp [hg, Res.getHeader, h1, h5, List.lookup]
    · by_cases hh : req.method = .HEAD
      · simp [hh, Res.getHeader, h1, h5, List.lookup]
      · simp [hg, hh]
  by_cases hc : (req.method = .GET ∨ req.method = .HEAD) ∧
      fresh rt req.headers (some (weakETag rt chunk)) none = true
  · have hc' : reqFresh rt req (sendHeaders rt initialRes chunk) = true := by
      rw [hf]; simpa using hc
    rw [if_pos hc]
    unfold send
    simp only [hc']
    rw [sendHeaders_initial]
    simp [Res.removeHeader, Res.setHeader, Res.end_, h2, h3, h6]
  · have hc' : reqFresh rt req (sendHeaders rt initialRes chunk) = false := by
      rw [hf]; simpa using hc
    rw [if_neg hc]
    unfold send
    simp only [hc']
    rw [sendHeaders_initial]
    simp [Res.end_]
    split <;> simp_all

theorem toLower_eq_slash (c : Char) (h : c.toLower = '/') : c = '/' := by
  unfold Char.toLower at h
  simp only at h
  split at h
  · rename_i hr
    exfalso
    revert h
    generalize c.toNat = n at hr
    obtain ⟨h1, h2⟩ := hr
    interval_cases n <;> decide
  · exact h

/-- The pattern compiled for the route path `/` accepts the empty path and `/` only. -/
theorem matchPath_root (p : String) : matchPath "/" p = true ↔ p = "" ∨ p = "/" := by
  have hstem : (if "/".data.getLast? = some '/' then "/".data.dropLast else "/".data) = [] := by
    decide
  unfold matchPath
  simp only [hstem, List.map_nil, List.nil_append, Bool.or_eq_true, decide_eq_true_eq]
  constructor
  · rintro (h | h)
    · left
      apply String.ext
      simpa using h
    · right
      apply String.ext
      cases hd : p.data with
      | nil => simp [hd] at h
      | cons c cs =>
        rw [hd] at h
        simp only [List.map_cons, List.cons.injEq, List.map_eq_nil_iff] at h
        rw [toLower_eq_slash c h.1, h.2]
  · rintro (h | h) <;> subst h <;> decide

/-- The stack of the application: the two built-in middlewares, then the one route. -/
theorem app_stack (penv : List (String × String)) :
    (app penv).stack =
      [Layer.middleware "query" queryMiddleware, Layer.middleware "expressInit" expressInit,
       Layer.route { path := "/", methods := [Method.GET],
                     stack := [{ method := Method.GET, handle := rootHandler }] }] := rfl

/-- A request the route does not take ends in `finalhandler`, unless it is an OPTIONS
request for the path of the route. -/
theorem serve_eq (rt : Runtime) (penv : List (String × String)) (req : Request) :
    serve rt penv req =
      if matchPath "/" req.path = true then
        if req.method = .GET ∨ req.method = .HEAD then
          send rt req initialRes "Hello, World New Another one!"
        else if req.method = .OPTIONS then
          sendOptionsResponse rt req initialRes ["GET", "HEAD"]
        else finalhandler rt req initialRes
      else finalhandler rt req initialRes := by
  unfold serve Application.handle
  rw [app_stack]
  simp only [routerHandle, queryMiddleware, expressInit, if_true]
  change (if matchPath "/" req.path = true then _ else _) = _
  by_cases hm : matchPath "/" req.path = true
  · rw [if_pos hm, if_pos hm]
    by_cases hg : req.method = .GET
    · simp [hg, Route.handlesMethod, Route.dispatch, rootHandler, initialRes]
    · by_cases hh : req.method = .HEAD
      · simp [hh, Route.handlesMethod, Route.dispatch, rootHandler, initialRes]
      · by_cases ho : req.method = .OPTIONS
        · simp [ho, Route.handlesMethod, Route.options, appendMethods, Method.name, done,
            initialRes]
        · simp [hg, hh, ho, Route.handlesMethod, done, initialRes]
  · rw [if_neg hm, if_neg hm]
    simp [done, initialRes]

theorem finalhandler_initial (rt : Runtime) (req : Request) :
    (finalhandler rt req initialRes).statusCode = 404 ∧
      (finalhandler rt req initialRes).ended = 1 := by
  unfold finalhandler
  rw [initialRes_eq]
  simp only [ne_eq, not_true_eq_false, if_false]
  split <;> simp [Res.end_, Res.setHeader, Res.removeHeader]

/-- The automatic OPTIONS answer for the route `/`. -/
theorem options_initial (rt : Runtime) (req : Request) (hm : req.method = .OPTIONS) :
    (sendOptionsResponse rt req initialRes ["GET", "HEAD"]).statusCode = 200 ∧
      (sendOptionsResponse rt req initialRes ["GET", "HEAD"]).getHeader "Allow" =
        some "GET,HEAD" ∧
      (sendOptionsResponse rt req initialRes ["GET", "HEAD"]).body = "GET,HEAD" := by
  obtain ⟨h1, h2, h3, h4, h5, h6, h7⟩ := lower_lit
  have hb : String.intercalate "," ["GET", "HEAD"] = "GET,HEAD" := by decide
  have hf : ∀ r : Res, reqFresh rt req r = false := by
    intro r
    simp [reqFresh, hm]
  unfold sendOptionsResponse
  simp only [hb]
  unfold send
  simp only [hf]
  rw [initialRes_eq]
  simp [sendHeaders, Res.setHeader, Res.getHeader, Res.end_, setEntry, truthy, h1, h2, h3, h7,
    hm, weakETag_ne, List.lookup]

/-! ## The claims -/

/-- C1, amended: a GET request to `/` is answered with status 200 and the greeting as
body unless the freshness check of `res.send` accepts it as a conditional request, in
which case it is answered with status 304 and an empty body. The check accepts no request
that carries neither `If-None-Match` nor `If-Modified-Since`. -/
theorem get_root_status_body (rt : Runtime) (penv : List (String × String)) (req : Request)
    (hm : req.method = .GET) (hp : req.path = "/") :
    (serve rt penv req).statusCode = (if notModified rt req = true then 304 else 200) ∧
    (serve rt penv req).body =
      (if notModified rt req = true then "" else "Hello, World New Another one!") ∧
    (truthy (req.header "if-none-match") = false →
      truthy (req.header "if-modified-since") = false → notModified rt req = false) := by
  have hmatch : matchPath "/" req.path = true := (matchPath_root _).2 (Or.inr hp)
  rw [serve_eq, if_pos hmatch, if_pos (Or.inl hm), send_initial]
  refine ⟨?_, ?_, ?_⟩
  · by_cases hf : notModified rt req = true
    · have hf' := hf
      unfold notModified at hf'
      simp [hf, hf', hm]
    · have hf' := hf
      unfold notModified at hf'
      simp [hf, hf', hm]
  · by_cases hf : notModified rt req = true
    · have hf' := hf
      unfold notModified at hf'
      simp [hf, hf', hm]
    · have hf' := hf
      unfold notModified at hf'
      simp [hf, hf', hm]
  · intro h1 h2
    unfold Request.header at h1 h2
    simp [notModified, fresh, h1, h2]

/-- C1, witness: the plain `GET /`. -/
theorem get_root_status_body_witness :
    plainGet.method = .GET ∧ plainGet.path = "/" ∧
    ((serve sampleRuntime [] plainGet).statusCode =
        (if notModified sampleRuntime plainGet = true then 304 else 200) ∧
      (serve sampleRuntime [] plainGet).body =
        (if notModified sampleRuntime plainGet = true then ""
          else "Hello, World New Another one!") ∧
      (truthy (plainGet.header "if-none-match") = false →
        truthy (plainGet.header "if-modified-since") = false →
        notModified sampleRuntime plainGet = false)) :=
  ⟨rfl, rfl, get_root_status_body sampleRuntime [] plainGet rfl rfl⟩

/-- C1, counterexample: `GET /` with `If-None-Match: *` is answered with status 304 and an
empty body, not with 200 and the greeting. -/
theorem get_root_not_always_200 :
    conditionalGet.method = .GET ∧ conditionalGet.path = "/" ∧
    (serve sampleRuntime [] conditionalGet).statusCode = 304 ∧
    (serve sampleRuntime [] conditionalGet).body = "" ∧
    ¬ ((serve sampleRuntime [] conditionalGet).statusCode = 200 ∧
        (serve sampleRuntime [] conditionalGet).body = "Hello, World New Another one!") := by
  decide

/-- C2, amended: a request to `/` with a method other than GET, HEAD and OPTIONS gets
the 404 of `finalhandler`. HEAD is answered by the GET handler, with the status of the
corresponding GET and no body; OPTIONS is answered by the router with status 200 and
`Allow: GET,HEAD`. -/
theorem non_get_root (rt : Runtime) (penv : List (String × String)) (req : Request)
    (hp : req.path = "/") (hm : req.method ≠ .GET) :
    (req.method ≠ .HEAD → req.method ≠ .OPTIONS →
      (serve rt penv req).statusCode = 404 ∧
      serve rt penv req = finalhandler rt req initialRes) ∧
    (req.method = .HEAD →
      serve rt penv req = (rootHandler rt req initialRes).res ∧
      (serve rt penv req).statusCode = (if notModified rt req = true then 304 else 200) ∧
      (serve rt penv req).body = "") ∧
    (req.method = .OPTIONS →
      (serve rt penv req).statusCode = 200 ∧
      (serve rt penv req).getHeader "Allow" = some "GET,HEAD" ∧
      (serve rt penv req).body = "GET,HEAD") := by
  have hmatch : matchPath "/" req.path = true := (matchPath_root _).2 (Or.inr hp)
  rw [serve_eq, if_pos hmatch]
  refine ⟨?_, ?_, ?_⟩
  · intro hh ho
    rw [if_neg (by simp [hm, hh]), if_neg ho]
    exact ⟨(finalhandler_initial rt req).1, rfl⟩
  · intro hh
    rw [if_pos (Or.inr hh)]
    refine ⟨rfl, ?_, ?_⟩
    · rw [send_initial]
      by_cases hf : notModified rt req = true
      · have hf' := hf
        unfold notModified at hf'
        simp [hf, hf', hh]
      · have hf' := hf
        unfold notModified at hf'
        simp [hf, hf', hh]
    · rw [send_initial]
      split <;> simp [hh]
  · intro ho
    rw [if_neg (by simp [ho]), if_pos ho]
    exact options_initial rt req ho

/-- C2, witness: `POST /`. -/
theorem non_get_root_witness :
    postRoot.path = "/" ∧ postRoot.method ≠ .GET ∧
    ((postRoot.method ≠ .HEAD → postRoot.method ≠ .OPTIONS →
      (serve sampleRuntime [] postRoot).statusCode = 404 ∧
      serve sampleRuntime [] postRoot = finalhandler sampleRuntime postRoot initialRes) ∧
    (postRoot.method = .HEAD →
      serve sampleRuntime [] postRoot = (rootHandler sampleRuntime postRoot initialRes).res ∧
      (serve sampleRuntime [] postRoot).statusCode =
        (if notModified sampleRuntime postRoot = true then 304 else 200) ∧
      (serve sampleRuntime [] postRoot).body = "") ∧
    (postRoot.method = .OPTIONS →
      (serve sampleRuntime [] postRoot).statusCode = 200 ∧
      (serve sampleRuntime [] postRoot).getHeader "Allow" = some "GET,HEAD" ∧
      (serve sampleRuntime [] postRoot).body = "GET,HEAD")) :=
  ⟨rfl, by decide, non_get_root sampleRuntime [] postRoot rfl (by decide)⟩

/-- C2, counterexample: `HEAD /` is answered by the GET handler with status 200, and
`OPTIONS /` is answered with status 200 as well. -/
theorem non_get_root_not_always_404 :
    headRoot.path = "/" ∧ headRoot.method ≠ .GET ∧
    (serve sampleRuntime [] headRoot).statusCode = 200 ∧
    serve sampleRuntime [] headRoot = (rootHandler sampleRuntime headRoot initialRes).res ∧
    optionsRoot.path = "/" ∧ optionsRoot.method ≠ .GET ∧
    (serve sampleRuntime [] optionsRoot).statusCode = 200 := by
  decide

/-- C3: a GET request to any path other than `/` is answered with status 404, by
`finalhandler`; the route for `/` is the only route of the application. -/
theorem get_other_path (rt : Runtime) (penv : List (String × String)) (req : Request)
    (hm : req.method = .GET) (hp : req.path ≠ "/") :
    (serve rt penv req).statusCode = 404 ∧
    serve rt penv req = finalhandler rt req initialRes ∧
    (app penv).routePaths = ["/"] := by
  have hmatch : ¬ matchPath "/" req.path = true := by
    rw [matchPath_root]
    rintro (h | h)
    · exact req.path_ne h
    · exact hp h
  have _ := hm
  rw [serve_eq, if_neg hmatch]
  exact ⟨(finalhandler_initial rt req).1, rfl, rfl⟩

/-- C3, witness: `GET /foo`. -/
theorem get_other_path_witness :
    getFoo.method = .GET ∧ getFoo.path ≠ "/" ∧
    ((serve sampleRuntime [] getFoo).statusCode = 404 ∧
    serve sampleRuntime [] getFoo = finalhandler sampleRuntime getFoo initialRes ∧
    (app []).routePaths = ["/"]) :=
  ⟨rfl, by decide, get_other_path sampleRuntime [] getFoo rfl (by decide)⟩

/-- C4, amended: the 200 response to a GET request to `/` carries the content type
`text/html; charset=utf-8`, which `res.send` gives a string body; the 304 response carries
no content type. -/
theorem get_root_content_type (rt : Runtime) (penv : List (String × String)) (req : Request)
    (hm : req.method = .GET) (hp : req.path = "/") :
    (serve rt penv req).contentType =
      (if notModified rt req = true then none else some "text/html; charset=utf-8") := by
  have hmatch : matchPath "/" req.path = true := (matchPath_root _).2 (Or.inr hp)
  have h2 : lower "Content-Type" = "content-type" := lower_lit.2.1
  rw [serve_eq, if_pos hmatch, if_pos (Or.inl hm), send_initial]
  by_cases hf : notModified rt req = true
  · have hf' := hf
    unfold notModified at hf'
    simp [hf, hf', hm, Res.contentType, Res.getHeader, h2, List.lookup]
  · have hf' := hf
    unfold notModified at hf'
    simp [hf, hf', hm, Res.contentType, Res.getHeader, h2, List.lookup]

/-- C4, witness: the plain `GET /`. -/
theorem get_root_content_type_witness :
    plainGet.method = .GET ∧ plainGet.path = "/" ∧
    (serve sampleRuntime [] plainGet).contentType =
      (if notModified sampleRuntime plainGet = true then none
        else some "text/html; charset=utf-8") :=
  ⟨rfl, rfl, get_root_content_type sampleRuntime [] plainGet rfl rfl⟩

/-- C4, counterexample: the response to the plain `GET /` has content type
`text/html; charset=utf-8`, not `text/plain`. -/
theorem get_root_not_text_plain :
    plainGet.method = .GET ∧ plainGet.path = "/" ∧
    (serve sampleRuntime [] plainGet).contentType = some "text/html; charset=utf-8" ∧
    (serve sampleRuntime [] plainGet).contentType ≠ some "text/plain" := by
  decide

/-- The whole run of `app.js`, by the answer to the one bind request it makes. -/
theorem main_eq (penv : List (String × String)) (argv : List String)
    (bind : ListenArgs → Except BindError Unit) :
    main penv argv bind =
      match bind { port := 8080, host := none } with
      | .ok _ =>
        { stdout := ["App listening at http://localhost:8080"],
          listening := some { port := 8080, host := none },
          uncaught := none, exitCode := none }
      | .error e =>
        { stdout := [], listening := none, uncaught := some e, exitCode := some 1 } := by
  have hline : "App listening at http://localhost:" ++ toString port =
      "App listening at http://localhost:8080" := by decide
  unfold main Application.listen Server.listen
  simp only [port]
  cases bind { port := 8080, host := none } with
  | ok u =>
    simp [Server.once, Server.emit, startupCallback, consoleLog, Process.start, hline]
  | error e =>
    simp [Server.once, Server.emit, Process.start]

/-- C5: when the bind succeeds, standard output holds exactly the one line
`App listening at http://localhost:8080`, the port in that line is the port the listener
is bound to, and the process keeps running. -/
theorem startup_success (penv : List (String × String)) (argv : List String)
    (bind : ListenArgs → Except BindError Unit)
    (h : bind { port := 8080, host := none } = .ok ()) :
    (main penv argv bind).stdout = ["App listening at http://localhost:8080"] ∧
    (main penv argv bind).listening = some { port := 8080, host := none } ∧
    (∀ a, (main penv argv bind).listening = some a →
      (main penv argv bind).stdout =
        ["App listening at http://localhost:" ++ toString a.port]) ∧
    (main penv argv bind).exitCode = none := by
  rw [main_eq, h]
  refine ⟨rfl, rfl, ?_, rfl⟩
  intro a ha
  simp only [Option.some.injEq] at ha
  subst ha
  decide

/-- C5, witness: a system on which the bind succeeds. -/
theorem startup_success_witness :
    bindOk { port := 8080, host := none } = .ok () ∧
    ((main [] [] bindOk).stdout = ["App listening at http://localhost:8080"] ∧
    (main [] [] bindOk).listening = some { port := 8080, host := none } ∧
    (∀ a, (main [] [] bindOk).listening = some a →
      (main [] [] bindOk).stdout =
        ["App listening at http://localhost:" ++ toString a.port]) ∧
    (main [] [] bindOk).exitCode = none) :=
  ⟨rfl, startup_success [] [] bindOk rfl⟩

/-- C6: when the bind fails, the process ends with exit code 1 on the uncaught error,
has printed nothing on standard output, listens on nothing and answers no request. -/
theorem startup_bind_failure (penv : List (String × String)) (argv : List String)
    (bind : ListenArgs → Except BindError Unit) (e : BindError)
    (h : bind { port := 8080, host := none } = .error e) :
    (main penv argv bind).exitCode = some 1 ∧
    (main penv argv bind).exitCode ≠ some 0 ∧
    (main penv argv bind).uncaught = some e ∧
    (main penv argv bind).stdout = [] ∧
    (main penv argv bind).listening = none ∧
    (∀ rt req, (main penv argv bind).respond rt penv req = none) := by
  rw [main_eq, h]
  refine ⟨rfl, by simp, rfl, rfl, rfl, ?_⟩
  intro rt req
  simp [Process.respond]

/-- C6, witness: a system on which the port is taken. -/
theorem startup_bind_failure_witness :
    bindInUse { port := 8080, host := none } = .error .EADDRINUSE ∧
    ((main [] [] bindInUse).exitCode = some 1 ∧
    (main [] [] bindInUse).exitCode ≠ some 0 ∧
    (main [] [] bindInUse).uncaught = some .EADDRINUSE ∧
    (main [] [] bindInUse).stdout = [] ∧
    (main [] [] bindInUse).listening = none ∧
    (∀ rt req, (main [] [] bindInUse).respond rt [] req = none)) :=
  ⟨rfl, startup_bind_failure [] [] bindInUse .EADDRINUSE rfl⟩

/-- C7, amended: two GET requests to `/` that carry the same `If-None-Match`,
`If-Modified-Since` and `Cache-Control` values get the same response, however they differ
in other headers, query string, body or client, and whatever the process environment. -/
theorem get_root_same_response (rt : Runtime) (penv1 penv2 : List (String × String))
    (req1 req2 : Request)
    (hm1 : req1.method = .GET) (hp1 : req1.path = "/")
    (hm2 : req2.method = .GET) (hp2 : req2.path = "/")
    (hn : req1.header "if-none-match" = req2.header "if-none-match")
    (hs : req1.header "if-modified-since" = req2.header "if-modified-since")
    (hc : req1.header "cache-control" = req2.header "cache-control") :
    serve rt penv1 req1 = serve rt penv2 req2 ∧
    (serve rt penv1 req1).statusCode = (serve rt penv2 req2).statusCode ∧
    (serve rt penv1 req1).body = (serve rt penv2 req2).body := by
  have h1 : matchPath "/" req1.path = true := (matchPath_root _).2 (Or.inr hp1)
  have h2 : matchPath "/" req2.path = true := (matchPath_root _).2 (Or.inr hp2)
  have hf := fresh_congr rt req1.headers req2.headers
    (some (weakETag rt "Hello, World New Another one!")) none hn hs hc
  have key : serve rt penv1 req1 = serve rt penv2 req2 := by
    rw [serve_eq, serve_eq, if_pos h1, if_pos h2, if_pos (Or.inl hm1), if_pos (Or.inl hm2),
      send_initial, send_initial, hf, hm1, hm2]
  exact ⟨key, by rw [key], by rw [key]⟩

/-- C7, witness: the plain `GET /` against a `GET /` with other headers, a query string,
a body and another client address, in another process environment. -/
theorem get_root_same_response_witness :
    plainGet.method = .GET ∧ plainGet.path = "/" ∧
    verboseGet.method = .GET ∧ verboseGet.path = "/" ∧
    plainGet.header "if-none-match" = verboseGet.header "if-none-match" ∧
    plainGet.header "if-modified-since" = verboseGet.header "if-modified-since" ∧
    plainGet.header "cache-control" = verboseGet.header "cache-control" ∧
    (serve sampleRuntime [] plainGet = serve sampleRuntime [("PORT", "3000")] verboseGet ∧
      (serve sampleRuntime [] plainGet).statusCode =
        (serve sampleRuntime [("PORT", "3000")] verboseGet).statusCode ∧
      (serve sampleRuntime [] plainGet).body =
        (serve sampleRuntime [("PORT", "3000")] verboseGet).body) :=
  ⟨rfl, rfl, rfl, rfl, by decide, by decide, by decide,
    get_root_same_response sampleRuntime [] [("PORT", "3000")] plainGet verboseGet
      rfl rfl rfl rfl (by decide) (by decide) (by decide)⟩

/-- C7, counterexample: two GET requests to `/` that differ in their headers get
responses with different status and different body. -/
theorem get_root_headers_matter :
    plainGet.method = .GET ∧ plainGet.path = "/" ∧
    revalidatingGet.method = .GET ∧ revalidatingGet.path = "/" ∧
    (serve sampleRuntime [] plainGet).statusCode = 200 ∧
    (serve sampleRuntime [] revalidatingGet).statusCode = 304 ∧
    (serve sampleRuntime [] plainGet).body ≠ (serve sampleRuntime [] revalidatingGet).body := by
  decide

/-- With the default setting `etag`, `res.send` is the `send` of the sections above. -/
theorem sendWith_weak (rt : Runtime) (req : Request) (res : Res) (chunk : String) :
    sendWith rt (etagGenerator rt .weak) req res chunk = send rt req res chunk := rfl

/-- One request handled from the state at startup: the response is that of `serve`, and
the shared state is left as it was. -/
theorem handleRequest_start (rt : Runtime) (penv : List (String × String)) (req : Request) :
    handleRequest rt (Shared.start penv) req = (serve rt penv req, Shared.start penv) := by
  have hs : (Shared.start penv).settings.etag = .weak := rfl
  have hx : (Shared.start penv).settings.xPoweredBy = true := rfl
  rw [serve_eq]
  unfold handleRequest sharedStack
  simp only [routerHandleShared, queryShared, expressInitShared, if_true, hx]
  change (if matchPath "/" req.path = true then _ else _) = _
  by_cases hm : matchPath "/" req.path = true
  · rw [if_pos hm, if_pos hm]
    by_cases hg : req.method = .GET
    · simp [hg, Route.handlesMethod, dispatchShared, rootHandlerShared, initialRes, hs,
        sendWith_weak]
    · by_cases hh : req.method = .HEAD
      · simp [hh, Route.handlesMethod, dispatchShared, rootHandlerShared, initialRes, hs,
          sendWith_weak]
      · by_cases ho : req.method = .OPTIONS
        · simp [ho, Route.handlesMethod, Route.options, appendMethods, Method.name,
            doneShared, sendOptionsResponse, initialRes, hs, sendWith_weak]
        · simp [hg, hh, ho, Route.handlesMethod, doneShared, initialRes]
  · rw [if_neg hm, if_neg hm]
    simp [doneShared, initialRes]

/-- A batch handled from the state at startup: every response is that of `serve`, and the
shared state comes out as it went in. -/
theorem serveBatch_start (rt : Runtime) (penv : List (String × String))
    (reqs : List Request) :
    serveBatch rt (Shared.start penv) reqs = (reqs.map (serve rt penv), Shared.start penv) := by
  induction reqs with
  | nil => rfl
  | cons req rest ih =>
    unfold serveBatch
    simp only [handleRequest_start, ih, List.map_cons]

/-- C8, amended: handling a request writes no state shared between requests. After any
batch of requests, in any order of arrival, the application settings that the handling
reads are as they were at startup, and every request got the response it would get
alone. A GET request to `/` in the batch got status 200 with the greeting as body, or,
when the freshness check accepts it, status 304 with an empty body. Handling the batch
in another order gives every request the same response, and any number of copies of
one request all get the same response. -/
theorem batch_responses (rt : Runtime) (penv : List (String × String))
    (reqs : List Request) :
    (serveBatch rt (Shared.start penv) reqs).2 = Shared.start penv ∧
    (serveBatch rt (Shared.start penv) reqs).1 =
      reqs.map (fun req => (handleRequest rt (Shared.start penv) req).1) ∧
    (∀ (i : Nat) (req : Request), reqs[i]? = some req → req.method = .GET → req.path = "/" →
      ∃ res : Res, (serveBatch rt (Shared.start penv) reqs).1[i]? = some res ∧
        res.statusCode = (if notModified rt req = true then 304 else 200) ∧
        res.body =
          (if notModified rt req = true then "" else "Hello, World New Another one!")) ∧
    (∀ reqs', reqs.Perm reqs' →
      (reqs.zip (serveBatch rt (Shared.start penv) reqs).1).Perm
        (reqs'.zip (serveBatch rt (Shared.start penv) reqs').1)) ∧
    (∀ n req, (serveBatch rt (Shared.start penv) (List.replicate n req)).1 =
      List.replicate n (handleRequest rt (Shared.start penv) req).1) := by
  have hzip : ∀ l : List Request,
      l.zip (l.map (serve rt penv)) = l.map (fun r => (r, serve rt penv r)) := by
    intro l
    induction l with
    | nil => rfl
    | cons a t ih => simp [ih]
  refine ⟨?_, ?_, ?_, ?_, ?_⟩
  · rw [serveBatch_start]
  · rw [serveBatch_start]
    simp only [handleRequest_start]
  · intro i req hi hm hp
    have hmatch : matchPath "/" req.path = true := (matchPath_root _).2 (Or.inr hp)
    refine ⟨serve rt penv req, ?_, ?_, ?_⟩
    · rw [serveBatch_start]
      simp [hi]
    · rw [serve_eq, if_pos hmatch, if_pos (Or.inl hm), send_initial]
      by_cases hf : notModified rt req = true
      · have hf' := hf
        unfold notModified at hf'
        simp [hf, hf', hm]
      · have hf' := hf
        unfold notModified at hf'
        simp [hf, hf', hm]
    · rw [serve_eq, if_pos hmatch, if_pos (Or.inl hm), send_initial]
      by_cases hf : notModified rt req = true
      · have hf' := hf
        unfold notModified at hf'
        simp [hf, hf', hm]
      · have hf' := hf
        unfold notModified at hf'
        simp [hf, hf', hm]
  · intro reqs' hperm
    rw [serveBatch_start, serveBatch_start]
    simp only [hzip]
    exact hperm.map _
  · intro n req
    rw [serveBatch_start]
    simp [handleRequest_start]

/-- C8, counterexample: in a batch of two GET requests to `/`, the one with
`If-None-Match: *` gets status 304 and an empty body. -/
theorem batch_not_all_200 :
    (∀ r ∈ [plainGet, conditionalGet], r.method = .GET ∧ r.path = "/") ∧
    (serveBatch sampleRuntime (Shared.start []) [plainGet, conditionalGet]).1.map
      Res.statusCode = [200, 304] ∧
    (serveBatch sampleRuntime (Shared.start []) [plainGet, conditionalGet]).1.map Res.body =
      ["Hello, World New Another one!", ""] := by
  decide

/-- C9: the handler of `GET /` calls `res.end` exactly once and does not call `next()`;
and every request, whichever layer answers it, gets exactly one response. -/
theorem one_response (rt : Runtime) (penv : List (String × String)) (req : Request)
    (res : Res) :
    (rootHandler rt req res).res.ended = res.ended + 1 ∧
    (rootHandler rt req res).next = false ∧
    (serve rt penv req).ended = 1 := by
  refine ⟨send_ended rt req res _, rfl, ?_⟩
  rw [serve_eq]
  have h0 : initialRes.ended = 0 := rfl
  split
  · split
    · rw [send_ended, h0]
    · split
      · unfold sendOptionsResponse
        rw [send_ended]
        rfl
      · exact (finalhandler_initial rt req).2
  · exact (finalhandler_initial rt req).2

/-- C10: whatever the process environment and the command line, the one bind request of
the program is for port 8080 without a host, that is on all interfaces: the run is
determined by the answer to that request, and a listener that comes up is bound to it. -/
theorem listen_fixed (penv : List (String × String)) (argv : List String)
    (bind : ListenArgs → Except BindError Unit) :
    main penv argv bind = main [] [] (fun _ => bind { port := 8080, host := none }) ∧
    (∀ a, (main penv argv bind).listening = some a → a = { port := 8080, host := none }) ∧
    (main penv argv bindOnly8080).listening = some { port := 8080, host := none } := by
  refine ⟨?_, ?_, ?_⟩
  · rw [main_eq, main_eq]
  · intro a ha
    rw [main_eq] at ha
    cases hb : bind { port := 8080, host := none } with
    | ok u =>
      rw [hb] at ha
      simp only [Option.some.injEq] at ha
      exact ha.symm
    | error e =>
      rw [hb] at ha
      simp at ha
  · rw [main_eq]
    rfl

end App
